import Mathlib

/-!
Shallow embedding of the EXIF metadata-analysis pipeline of `stats.py`
(PhotoTools): `parse_exif`, `get_exif_data` and `analyze_folder`.

Modelling decisions, all noted where they apply:
* Python floats are modelled exactly by `PyFloat`: a rational number, or one
  of the special values `nan`, `inf`, `-inf`.  Binary-double rounding is not
  modelled; none of the verified properties depends on rounding.
* `exifread` tag dictionaries are modelled as association lists from tag name
  to the string rendering of the tag value (the code immediately applies
  `str` to every tag value it reads).
* The filesystem is a list of files, each a name together with
  `Option Tags`: `none` means opening / `exifread.process_file` raises (the
  code catches that and skips the file).  `os.walk` is modelled as this
  flattened list; the extension test runs on the basename exactly as in the
  code.
* Exceptions that the code does NOT catch are modelled with `Except Unit`:
  a `ValueError` escaping `parse_exif` propagates out of `get_exif_data` and,
  through `list(executor.map ...)`, out of `analyze_folder`.
* `analyze_folder`'s observable behaviour is an `AnalyzeResult`: the ordered
  list of filesystem effects (ensure output dir, write CSV, apply `np.log10`
  to the shutter column, write plot) plus the final table (`none` models the
  two early "no data" returns, which print and write nothing).
* `pandas` steps are modelled by their effect on the row list:
  `pd.to_numeric(errors='coerce')` is the identity on the already-float
  columns (a missing value `None` is `NaN`), and `df.dropna()` removes every
  row in which any of the five float columns is `NaN` (the `File` and `Lens`
  columns are strings and never `NaN`).
-/

/-- A Python float value: an exact rational, or `nan`, `inf`, `-inf`.
Signed zero is conflated with zero, consistent with Python `==`. -/
inductive PyFloat where
  | num (q : ℚ)
  | nan
  | inf
  | ninf
deriving DecidableEq, Repr

/-- Whether a float is Python's `nan` (the only value `pandas.dropna` drops). -/
def PyFloat.isNaN : PyFloat → Bool
  | .nan => true
  | _ => false

/-- Python `<` on floats: any comparison with `nan` is `False`. -/
def pyLt : PyFloat → PyFloat → Bool
  | .nan, _ => false
  | _, .nan => false
  | .ninf, .ninf => false
  | .ninf, _ => true
  | _, .ninf => false
  | .num a, .num b => decide (a < b)
  | .num _, .inf => true
  | .inf, _ => false

/-- Python `>=` on floats: false when either side is `nan`, else the negation
of `<`. -/
def pyGe (x y : PyFloat) : Bool := !x.isNaN && !y.isNaN && !pyLt x y

/-- Python `!=` on floats: `True` whenever either side is `nan`. -/
def pyNe : PyFloat → PyFloat → Bool
  | .nan, _ => true
  | _, .nan => true
  | x, y => decide (x ≠ y)

/-- Python float division.  The source only divides after checking the
denominator `!= 0`, so the zero-denominator branch is unreachable there;
it is mapped to `nan` to keep the function total. -/
def pyDiv : PyFloat → PyFloat → PyFloat
  | .nan, _ => .nan
  | _, .nan => .nan
  | .num a, .num b => if b = 0 then .nan else .num (a / b)
  | .num _, .inf => .num 0
  | .num _, .ninf => .num 0
  | .inf, .num b => if b < 0 then .ninf else .inf
  | .ninf, .num b => if b < 0 then .inf else .ninf
  | .inf, .inf => .nan
  | .inf, .ninf => .nan
  | .ninf, .inf => .nan
  | .ninf, .ninf => .nan

/-- Whitespace stripped by Python's `float(...)`. -/
def isPyWs (c : Char) : Bool :=
  c = ' ' || c = '\t' || c = '\n' || c = '\r' || c = '\x0b' || c = '\x0c'

/-- Strip leading and trailing whitespace from a character list. -/
def stripWs (l : List Char) : List Char :=
  ((l.dropWhile isPyWs).reverse.dropWhile isPyWs).reverse

/-- Numeric value of a digit string. -/
def digitsNat (l : List Char) : ℕ :=
  l.foldl (fun acc c => 10 * acc + (c.toNat - '0'.toNat)) 0

/-- Parse the optional exponent part (`e`/`E`, sign, digits) of a Python
float literal and apply it to mantissa `m`; `none` models `ValueError`. -/
def parseExpPart (l : List Char) (m : ℚ) : Option ℚ :=
  match l with
  | [] => some m
  | c :: r =>
    if c = 'e' || c = 'E' then
      let p : Bool × List Char :=
        match r with
        | '+' :: t => (false, t)
        | '-' :: t => (true, t)
        | _ => (false, r)
      let ds := p.2.takeWhile Char.isDigit
      let rest := p.2.dropWhile Char.isDigit
      if ds.isEmpty || !rest.isEmpty then none
      else some (if p.1 then m / 10 ^ digitsNat ds else m * 10 ^ digitsNat ds)
    else none

/-- Parse the unsigned decimal body of a Python float literal
(`digits [. digits] [exponent]`, at least one mantissa digit);
`none` models `ValueError`. -/
def parseDecimal (l : List Char) : Option ℚ :=
  let ip := l.takeWhile Char.isDigit
  let r1 := l.dropWhile Char.isDigit
  match r1 with
  | '.' :: r2 =>
    let fp := r2.takeWhile Char.isDigit
    let r3 := r2.dropWhile Char.isDigit
    if ip.isEmpty && fp.isEmpty then none
    else parseExpPart r3 ((digitsNat ip : ℚ) + (digitsNat fp : ℚ) / 10 ^ fp.length)
  | _ => if ip.isEmpty then none else parseExpPart r1 (digitsNat ip)

/-- Python's `float(s)` on a string: strip whitespace, optional sign, then
`inf`/`infinity`/`nan` (case-insensitive) or a decimal literal.
`none` models `ValueError`.  (Underscore digit separators are not modelled;
no property below depends on them.) -/
def pyFloatOfString (s : String) : Option PyFloat :=
  let l := stripWs s.data
  let p : Bool × List Char :=
    match l with
    | '+' :: t => (false, t)
    | '-' :: t => (true, t)
    | _ => (false, l)
  let low := p.2.map Char.toLower
  if low = ['i', 'n', 'f'] || low = ['i', 'n', 'f', 'i', 'n', 'i', 't', 'y'] then
    some (if p.1 then .ninf else .inf)
  else if low = ['n', 'a', 'n'] then
    some .nan
  else
    match parseDecimal p.2 with
    | some q => some (.num (if p.1 then -q else q))
    | none => none

/-- Python's `value.split(sep)` for a one-character separator, on char
lists: `splitChar c l` never returns `[]` and keeps empty pieces,
e.g. `"1/".split("/") = ["1", ""]`. -/
def splitChar (sep : Char) : List Char → List (List Char)
  | [] => [[]]
  | c :: t =>
    let r := splitChar sep t
    if c = sep then [] :: r
    else
      match r with
      | [] => [[c]]
      | h :: t2 => (c :: h) :: t2

/-- An `exifread` tag dictionary, post-`str`: tag name to string value. -/
abbrev Tags := List (String × String)

/-- Python `tag in tags` / `tags[tag]`: first binding of the name. -/
def tagLookup (tags : Tags) (name : String) : Option String :=
  (tags.find? (fun p => p.1 == name)).map (fun p => p.2)

/-- Python `tags.get(name, dflt)`. -/
def tagGetD (tags : Tags) (name dflt : String) : String :=
  (tagLookup tags name).getD dflt

/-- The inner `parse_exif` of `get_exif_data` (stats.py lines 25-36).
Faithful to the source's control flow:
* absent tag: `None` (`.ok none`);
* value containing `/`: split on `/`; anything other than exactly two
  pieces raises `ValueError` (unpacking), modelled `.error ()`;
  `float(denom)` is evaluated first (in the conditional's test), so an
  unparseable denominator raises; a zero denominator returns `None`
  WITHOUT evaluating `float(num)`; otherwise an unparseable numerator
  raises, else the quotient is returned;
* plain value: `float(value)`, with `ValueError` caught and mapped to
  `None` — this `try/except` covers only the no-slash branch. -/
def parse_exif (tags : Tags) (tag : String) : Except Unit (Option PyFloat) :=
  match tagLookup tags tag with
  | none => .ok none
  | some value =>
    if value.data.contains '/' then
      match splitChar '/' value.data with
      | [numC, denomC] =>
        match pyFloatOfString ⟨denomC⟩ with
        | none => .error ()
        | some d =>
          if pyNe d (.num 0) then
            match pyFloatOfString ⟨numC⟩ with
            | none => .error ()
            | some n => .ok (some (pyDiv n d))
          else .ok none
      | _ => .error ()
    else .ok (pyFloatOfString value)

/-- One extracted metadata record (the dict built at stats.py lines 42-50). -/
structure Record where
  file : String
  rating : PyFloat
  fStop : Option PyFloat
  iso : Option PyFloat
  shutterSpeed : Option PyFloat
  focalLength : Option PyFloat
  lens : String
deriving DecidableEq, Repr

/-- `get_exif_data(image_path, min_rating)` (stats.py lines 16-50).
`file = none` models an exception while opening or EXIF-processing the
file, which the function catches and turns into `None`.  Errors raised by
`parse_exif` on tag values are NOT caught and escape as `.error ()`. -/
def get_exif_data (image_path : String) (file : Option Tags) (min_rating : PyFloat) :
    Except Unit (Option Record) :=
  match file with
  | none => .ok none
  | some tags => do
    let rating? ← parse_exif tags "Image Rating"
    match rating? with
    | none => pure none
    | some rating =>
      if pyLt rating min_rating then pure none
      else do
        let fStop ← parse_exif tags "EXIF FNumber"
        let iso ← parse_exif tags "EXIF ISOSpeedRatings"
        let shutterSpeed ← parse_exif tags "EXIF ExposureTime"
        let focalLength ← parse_exif tags "EXIF FocalLength"
        pure (some
          { file := image_path
            rating := rating
            fStop := fStop
            iso := iso
            shutterSpeed := shutterSpeed
            focalLength := focalLength
            lens := tagGetD tags "EXIF LensModel" "" })

deriving instance DecidableEq for Except

/-- `IMAGE_EXTENSIONS` (stats.py line 12); a Python set, modelled as the
list of its elements (only membership is used). -/
def IMAGE_EXTENSIONS : List String :=
  [".jpg", ".jpeg", ".tiff", ".dng", ".nef", ".cr2", ".arw"]

/-- Python `str.lower()` (per-character ASCII/simple lowering). -/
def pyLower (s : String) : String := ⟨s.data.map Char.toLower⟩

/-- Python `str.endswith(suffix)`. -/
def pyEndsWith (s suffix : String) : Bool := suffix.data.isSuffixOf s.data

/-- The scanner's per-file test (stats.py line 59):
`any(file.lower().endswith(ext) for ext in IMAGE_EXTENSIONS)`. -/
def scanIncludes (file : String) : Bool :=
  IMAGE_EXTENSIONS.any (fun ext => pyEndsWith (pyLower file) ext)

/-- One file visited by `os.walk`: its (base)name and either its
`exifread` tag dictionary, or `none` when opening / EXIF-processing the
file raises.  The walk itself is modelled by the flattened file list. -/
structure FSFile where
  name : String
  tags : Option Tags
deriving DecidableEq, Repr

/-- The lens condition of the collection loop (stats.py line 69):
`selected_lens is None or metadata['Lens'] == selected_lens`. -/
def lensMatches (selected_lens : Option String) (r : Record) : Bool :=
  match selected_lens with
  | none => true
  | some l => r.lens == l

/-- The collection loop (stats.py lines 68-70): keep the non-`None`
extraction results that pass the lens condition.  (`if metadata` is dict
truthiness; the dict always has seven keys, so it is exactly a `None`
test.) -/
def collectData (results : List (Option Record)) (selected_lens : Option String) :
    List Record :=
  results.filterMap (fun m =>
    match m with
    | some r => if lensMatches selected_lens r then some r else none
    | none => none)

/-- Whether a DataFrame cell holds an actual number: `pd.to_numeric` left a
non-`NaN` float there (`none`, i.e. Python `None`, becomes `NaN`;
`±inf` is numeric and is NOT dropped by `dropna`). -/
def isRealValue : Option PyFloat → Bool
  | some v => !v.isNaN
  | none => false

/-- The row test implemented by `pd.to_numeric(errors='coerce')` +
`df.dropna()` (stats.py lines 77-79): a row survives iff none of its five
float cells is `NaN`.  The `File` and `Lens` cells are strings and never
`NaN`. -/
def rowKept (r : Record) : Bool :=
  !r.rating.isNaN && isRealValue r.fStop && isRealValue r.iso &&
    isRealValue r.shutterSpeed && isRealValue r.focalLength

/-- The values `np.log10` receives from `df['Shutter Speed']`
(stats.py line 103), in row order. -/
def shutterValues (rows : List Record) : List PyFloat :=
  rows.map (fun r => r.shutterSpeed.getD .nan)

/-- Observable side effects of `analyze_folder`, in program order:
ensure the output directory exists, write the CSV, apply `np.log10` to the
shutter-speed column (recording its argument values), write the plot file. -/
inductive Effect where
  | mkdirOutput
  | writeCsv (rows : List Record)
  | computeLog (args : List PyFloat)
  | writePlot
deriving DecidableEq, Repr

/-- Observable outcome of `analyze_folder`: the effect trace and the final
table (`none` models the two early returns, which only print). -/
structure AnalyzeResult where
  effects : List Effect
  table : Option (List Record)
deriving DecidableEq, Repr

/-- `analyze_folder(folder_path, min_rating, selected_lens, f_stop_steps)`
(stats.py lines 53-135).  Steps, in source order:
1. scan: keep the files whose name passes `scanIncludes`;
2. `list(executor.map(...))`: extract metadata from every candidate; the
   list is in input order, and any exception escaping one `get_exif_data`
   call re-raises here, aborting the whole call (`.error ()`);
3. collection loop with the lens condition;
4. `if not data: return` — nothing written;
5. `to_numeric` + `dropna` row cleanup;
6. `if df.empty: return` — nothing written;
7. otherwise: ensure output dir, write CSV, add the `log10` shutter column,
   write the plot.  (`f_stop_steps` only changes plot binning and is not
   modelled; printing is not modelled.) -/
def analyze_folder (files : List FSFile) (min_rating : PyFloat)
    (selected_lens : Option String) : Except Unit AnalyzeResult := do
  let image_paths := files.filter (fun f => scanIncludes f.name)
  let results ← image_paths.mapM (fun f => get_exif_data f.name f.tags min_rating)
  let data := collectData results selected_lens
  if data.isEmpty then
    pure ⟨[], none⟩
  else
    let rows := data.filter rowKept
    if rows.isEmpty then
      pure ⟨[], none⟩
    else
      pure ⟨[.mkdirOutput, .writeCsv rows, .computeLog (shutterValues rows), .writePlot],
        some rows⟩

/-! Spec-side definitions, written from the spec's words, for the claims
that compare the code against a spec-level notion. -/

/-- Modelled from the spec: the supported extension names
("jpg, jpeg, tiff, dng, nef, cr2, arw"). -/
def SUPPORTED_EXT_NAMES : List String :=
  ["jpg", "jpeg", "tiff", "dng", "nef", "cr2", "arw"]

/-- Modelled from the spec: the extension of a filename — the part after
the last dot, absent when the name has no dot. -/
def extOf (s : String) : Option String :=
  let r := s.data.reverse
  if r.contains '.' then some ⟨(r.takeWhile (fun c => c ≠ '.')).reverse⟩ else none

/-- Modelled from the spec: "includes a file iff its extension
(case-insensitive) is in the supported set". -/
def specIncludes (file : String) : Bool :=
  match extOf (pyLower file) with
  | some e => SUPPORTED_EXT_NAMES.contains e
  | none => false

/-- Modelled from the spec: a table cell that is "present" and "finite"
(an actual rational number, not missing, `NaN` nor `±inf`). -/
def isFiniteVal : Option PyFloat → Bool
  | some (.num _) => true
  | _ => false

/-- Modelled from the spec: a table cell that is present, finite and
strictly positive. -/
def isPositiveVal : Option PyFloat → Bool
  | some (.num q) => decide (0 < q)
  | _ => false

/-- Value of a successful extraction, `none` for an error (used only to
restate a successful `mapM` as a pointwise `map`). -/
def okValue (e : Except Unit (Option Record)) : Option Record :=
  match e with
  | .ok v => v
  | .error _ => none

/-- The reversed extension characters of a (lowered) filename: the
characters after the last dot, read right to left. -/
def revExtChars (s : String) : List Char :=
  s.data.reverse.takeWhile (fun c => c ≠ '.')

/-! Concrete inputs used by witnesses and counterexamples. -/

/-- Tag dictionary of a fully valid image: rating 5, F2.8, ISO 400,
1/250 s, 35 mm. -/
def goodTags : Tags :=
  [("Image Rating", "5"), ("EXIF FNumber", "2.8"), ("EXIF ISOSpeedRatings", "400"),
   ("EXIF ExposureTime", "1/250"), ("EXIF FocalLength", "35"), ("EXIF LensModel", "L")]

/-- The record extracted from `goodTags`. -/
def goodRow : Record :=
  { file := "g.jpg", rating := .num 5, fStop := some (.num (14 / 5)),
    iso := some (.num 400), shutterSpeed := some (.num (1 / 250)),
    focalLength := some (.num 35), lens := "L" }

/-- Tag dictionary whose rating value has a slash with a non-numeric
numerator: `float("a")` raises an uncaught `ValueError`. -/
def badSlashTags : Tags := [("Image Rating", "a/2")]

/-- Tags identical to `goodTags` except the exposure time is `"1/0"`. -/
def zeroDenomTags : Tags :=
  [("Image Rating", "5"), ("EXIF FNumber", "2.8"), ("EXIF ISOSpeedRatings", "400"),
   ("EXIF ExposureTime", "1/0"), ("EXIF FocalLength", "35"), ("EXIF LensModel", "L")]

/-- The record extracted from `zeroDenomTags`: its shutter speed is missing. -/
def zeroDenomRow : Record :=
  { file := "z.jpg", rating := .num 5, fStop := some (.num (14 / 5)),
    iso := some (.num 400), shutterSpeed := none,
    focalLength := some (.num 35), lens := "L" }

/-- Tags identical to `goodTags` except the exposure time is `"0"`. -/
def zeroShutterTags : Tags :=
  [("Image Rating", "5"), ("EXIF FNumber", "2.8"), ("EXIF ISOSpeedRatings", "400"),
   ("EXIF ExposureTime", "0"), ("EXIF FocalLength", "35"), ("EXIF LensModel", "L")]

/-- The record extracted from `zeroShutterTags`: shutter speed 0. -/
def zeroShutterRow : Record :=
  { file := "s.jpg", rating := .num 5, fStop := some (.num (14 / 5)),
    iso := some (.num 400), shutterSpeed := some (.num 0),
    focalLength := some (.num 35), lens := "L" }

/-- Tags with rating 5 but F-number `"0"`, ISO `"inf"` and focal length
`"-35"`: all parse to non-`NaN` floats and survive the cleanup. -/
def invalidNumTags : Tags :=
  [("Image Rating", "5"), ("EXIF FNumber", "0"), ("EXIF ISOSpeedRatings", "inf"),
   ("EXIF ExposureTime", "1/250"), ("EXIF FocalLength", "-35"), ("EXIF LensModel", "L")]

/-- The record extracted from `invalidNumTags`. -/
def invalidNumRow : Record :=
  { file := "i.jpg", rating := .num 5, fStop := some (.num 0),
    iso := some .inf, shutterSpeed := some (.num (1 / 250)),
    focalLength := some (.num (-35)), lens := "L" }

/-- The record `get_exif_data` builds when the rating parses to `NaN` and
the four numeric tags parse to `v1 .. v4`. -/
def nanRatingRecord (p : String) (tags : Tags) (v1 v2 v3 v4 : Option PyFloat) : Record :=
  { file := p, rating := .nan, fStop := v1, iso := v2, shutterSpeed := v3,
    focalLength := v4, lens := tagGetD tags "EXIF LensModel" "" }

/-- Tags whose rating value is the string `"nan"`. -/
def nanRatingTags : Tags :=
  [("Image Rating", "nan"), ("EXIF FNumber", "2.8"), ("EXIF ISOSpeedRatings", "400"),
   ("EXIF ExposureTime", "1/250"), ("EXIF FocalLength", "35")]

/-! Helper lemmas. -/

theorem exceptBind_ok {α β : Type} (a : α) (f : α → Except Unit β) :
    (Except.ok a : Except Unit α) >>= f = f a := rfl

theorem exceptBind_error {ε α β : Type} (e : ε) (f : α → Except ε β) :
    (Except.error e : Except ε α) >>= f = Except.error e := rfl

theorem mapM_ok_eq_map {α : Type} (g : α → Except Unit (Option Record)) :
    ∀ {l : List α} {r : List (Option Record)}, l.mapM g = .ok r →
      r = l.map (fun x => okValue (g x)) := by
  intro l
  induction l with
  | nil =>
    intro r h
    rw [List.mapM_nil] at h
    cases h
    rfl
  | cons a t ih =>
    intro r h
    rw [List.mapM_cons] at h
    cases hga : g a with
    | error e =>
      rw [hga, exceptBind_error] at h
      exact absurd h (by simp)
    | ok v =>
      rw [hga, exceptBind_ok] at h
      cases hmt : t.mapM g with
      | error e =>
        rw [hmt, exceptBind_error] at h
        exact absurd h (by simp)
      | ok vs =>
        rw [hmt, exceptBind_ok] at h
        cases h
        simp [List.map, ih hmt, okValue, hga]

theorem mapM_ok_of_all_ok {α : Type} (g : α → Except Unit (Option Record)) :
    ∀ {l : List α}, (∀ x ∈ l, ∃ v, g x = .ok v) →
      l.mapM g = .ok (l.map (fun x => okValue (g x))) := by
  intro l
  induction l with
  | nil => intro _; rw [List.mapM_nil]; rfl
  | cons a t ih =>
    intro hall
    rw [List.mapM_cons]
    obtain ⟨v, hv⟩ := hall a (by simp)
    rw [hv, exceptBind_ok, ih (fun x hx => hall x (by simp [hx]))]
    simp [okValue, hv]

/-- Destructuring a successful, table-producing run of `analyze_folder`:
the extraction `mapM` succeeded and the table is exactly the collected,
lens-filtered, cleanup-filtered row list. -/
theorem analyze_ok_some {files : List FSFile} {min_rating : PyFloat}
    {selected_lens : Option String} {res : AnalyzeResult} {rows : List Record}
    (h : analyze_folder files min_rating selected_lens = .ok res)
    (ht : res.table = some rows) :
    ∃ results,
      (files.filter (fun f => scanIncludes f.name)).mapM
          (fun f => get_exif_data f.name f.tags min_rating) = .ok results ∧
      rows = (collectData results selected_lens).filter rowKept := by
  dsimp only [analyze_folder] at h
  cases hm : (files.filter (fun f => scanIncludes f.name)).mapM
      (fun f => get_exif_data f.name f.tags min_rating) with
  | error e =>
    rw [hm] at h
    rw [exceptBind_error] at h
    exact absurd h (by simp)
  | ok results =>
    simp only [hm, exceptBind_ok] at h
    refine ⟨results, rfl, ?_⟩
    by_cases hd : (collectData results selected_lens).isEmpty
    · rw [if_pos hd] at h
      cases h
      simp at ht
    · rw [if_neg hd] at h
      by_cases hr : ((collectData results selected_lens).filter rowKept).isEmpty
      · rw [if_pos hr] at h
        cases h
        simp at ht
      · rw [if_neg hr] at h
        cases h
        simp at ht
        exact ht.symm

/-- A record produced by `get_exif_data` passed the rating check. -/
theorem get_exif_data_rating {p : String} {file : Option Tags} {min_rating : PyFloat}
    {r : Record} (h : get_exif_data p file min_rating = .ok (some r)) :
    pyLt r.rating min_rating = false := by
  unfold get_exif_data at h
  split at h
  · exact absurd h (by simp)
  next tags =>
    cases hrat : parse_exif tags "Image Rating" with
    | error e =>
      rw [hrat, exceptBind_error] at h
      exact absurd h (by simp)
    | ok rating? =>
      simp only [hrat, exceptBind_ok] at h
      split at h
      · exact absurd h (by simp [pure, Except.pure])
      next rating =>
        split at h
        · exact absurd h (by simp [pure, Except.pure])
        next hlt =>
          cases h1 : parse_exif tags "EXIF FNumber" with
          | error e => rw [h1, exceptBind_error] at h; exact absurd h (by simp)
          | ok v1 =>
            simp only [h1, exceptBind_ok] at h
            cases h2 : parse_exif tags "EXIF ISOSpeedRatings" with
            | error e => rw [h2, exceptBind_error] at h; exact absurd h (by simp)
            | ok v2 =>
              simp only [h2, exceptBind_ok] at h
              cases h3 : parse_exif tags "EXIF ExposureTime" with
              | error e => rw [h3, exceptBind_error] at h; exact absurd h (by simp)
              | ok v3 =>
                simp only [h3, exceptBind_ok] at h
                cases h4 : parse_exif tags "EXIF FocalLength" with
                | error e => rw [h4, exceptBind_error] at h; exact absurd h (by simp)
                | ok v4 =>
                  simp only [h4, exceptBind_ok] at h
                  simp only [pure, Except.pure, Except.ok.injEq, Option.some.injEq] at h
                  rw [← h]
                  simpa using Bool.of_not_eq_true hlt

theorem pyGe_of_not_lt {a b : PyFloat} (ha : a.isNaN = false) (hb : b.isNaN = false)
    (h : pyLt a b = false) : pyGe a b = true := by
  cases a <;> cases b <;> simp_all [pyGe, pyLt, PyFloat.isNaN]

theorem mem_collectData {results : List (Option Record)} {lens : Option String}
    {r : Record} (h : r ∈ collectData results lens) :
    some r ∈ results ∧ lensMatches lens r = true := by
  unfold collectData at h
  rw [List.mem_filterMap] at h
  obtain ⟨m, hm, he⟩ := h
  cases m with
  | none => simp at he
  | some r2 =>
    dsimp only at he
    by_cases hl : lensMatches lens r2
    · rw [if_pos hl] at he
      cases he
      exact ⟨hm, hl⟩
    · rw [if_neg hl] at he
      exact absurd he (by simp)

theorem collectData_none (results : List (Option Record)) :
    collectData results none = results.filterMap id := by
  unfold collectData
  induction results with
  | nil => rfl
  | cons a t ih =>
    cases a <;> simp_all [lensMatches]

/-- Provenance of a collected record: it is the successful extraction
result of one of the scanned files. -/
theorem collected_from_extraction {files : List FSFile} {min_rating : PyFloat}
    {results : List (Option Record)} {r : Record}
    (hm : (files.filter (fun f => scanIncludes f.name)).mapM
        (fun f => get_exif_data f.name f.tags min_rating) = .ok results)
    (hr : some r ∈ results) :
    ∃ f ∈ files.filter (fun f => scanIncludes f.name),
      get_exif_data f.name f.tags min_rating = .ok (some r) := by
  rw [mapM_ok_eq_map _ hm] at hr
  rw [List.mem_map] at hr
  obtain ⟨f, hf, he⟩ := hr
  refine ⟨f, hf, ?_⟩
  cases hg : get_exif_data f.name f.tags min_rating with
  | error e => rw [hg] at he; simp [okValue] at he
  | ok v => rw [hg] at he; simp [okValue] at he; rw [he]

/-! String-suffix machinery for the scanner claim. -/

theorem takeWhile_all_append {p : Char → Bool} :
    ∀ (xs : List Char) {y : Char} (t : List Char), (∀ c ∈ xs, p c = true) → p y = false →
      (xs ++ y :: t).takeWhile p = xs := by
  intro xs
  induction xs with
  | nil =>
    intro y t _ hy
    simp [List.takeWhile_cons, hy]
  | cons a as ih =>
    intro y t hall hy
    have ha : p a = true := hall a (by simp)
    simp only [List.cons_append, List.takeWhile_cons, ha, if_true]
    rw [ih t (fun c hc => hall c (by simp [hc])) hy]

theorem dropWhile_head_false {p : Char → Bool} :
    ∀ {l : List Char} {c : Char} {t : List Char}, l.dropWhile p = c :: t → p c = false := by
  intro l
  induction l with
  | nil =>
    intro c t h
    simp [List.dropWhile_nil] at h
  | cons a as ih =>
    intro c t h
    by_cases ha : p a
    · rw [List.dropWhile_cons, if_pos ha] at h
      exact ih h
    · rw [List.dropWhile_cons, if_neg ha] at h
      cases h
      exact eq_false_of_ne_true ha

theorem prefix_dot_iff {er R : List Char} (he : ('.' : Char) ∉ er) :
    er ++ ['.'] <+: R ↔
      (R.takeWhile (fun c => c ≠ '.') = er ∧ ('.' : Char) ∈ R) := by
  constructor
  · rintro ⟨t, ht⟩
    have hR : er ++ '.' :: t = R := by simpa using ht
    subst hR
    refine ⟨?_, by simp⟩
    apply takeWhile_all_append
    · intro c hc
      exact decide_eq_true (fun hcd => he (hcd ▸ hc))
    · simp
  · rintro ⟨htw, hmem⟩
    have hsplit := List.takeWhile_append_dropWhile (fun c : Char => decide (c ≠ '.')) R
    cases hd : R.dropWhile (fun c : Char => decide (c ≠ '.')) with
    | nil =>
      rw [hd, List.append_nil] at hsplit
      exact absurd (by rw [← htw, hsplit]; exact hmem) he
    | cons c t =>
      have hc : decide (c ≠ '.') = false := dropWhile_head_false hd
      have hcd : c = '.' := by simpa using hc
      refine ⟨t, ?_⟩
      rw [← hsplit, htw, hd, hcd]
      simp

theorem endsWith_ext_iff {f : String} {e : List Char} (he : ('.' : Char) ∉ e) :
    pyEndsWith f ⟨'.' :: e⟩ = true ↔
      ((f.data.reverse.takeWhile (fun c => c ≠ '.')) = e.reverse ∧
        ('.' : Char) ∈ f.data.reverse) := by
  unfold pyEndsWith
  rw [List.isSuffixOf_iff_suffix]
  show '.' :: e <:+ f.data ↔ _
  rw [← List.reverse_prefix, List.reverse_cons]
  exact prefix_dot_iff (by simpa using he)

theorem scanIncludes_iff {f : String} :
    scanIncludes f = true ↔
      (('.' : Char) ∈ (pyLower f).data.reverse ∧
        (revExtChars (pyLower f) = ['g', 'p', 'j'] ∨
         revExtChars (pyLower f) = ['g', 'e', 'p', 'j'] ∨
         revExtChars (pyLower f) = ['f', 'f', 'i', 't'] ∨
         revExtChars (pyLower f) = ['g', 'n', 'd'] ∨
         revExtChars (pyLower f) = ['f', 'e', 'n'] ∨
         revExtChars (pyLower f) = ['2', 'r', 'c'] ∨
         revExtChars (pyLower f) = ['w', 'r', 'a'])) := by
  have h1 : (".jpg" : String) = ⟨'.' :: ['j', 'p', 'g']⟩ := rfl
  have h2 : (".jpeg" : String) = ⟨'.' :: ['j', 'p', 'e', 'g']⟩ := rfl
  have h3 : (".tiff" : String) = ⟨'.' :: ['t', 'i', 'f', 'f']⟩ := rfl
  have h4 : (".dng" : String) = ⟨'.' :: ['d', 'n', 'g']⟩ := rfl
  have h5 : (".nef" : String) = ⟨'.' :: ['n', 'e', 'f']⟩ := rfl
  have h6 : (".cr2" : String) = ⟨'.' :: ['c', 'r', '2']⟩ := rfl
  have h7 : (".arw" : String) = ⟨'.' :: ['a', 'r', 'w']⟩ := rfl
  unfold scanIncludes IMAGE_EXTENSIONS revExtChars
  simp only [List.any_cons, List.any_nil, Bool.or_eq_true, Bool.false_eq_true, or_false]
  rw [h1, h2, h3, h4, h5, h6, h7]
  rw [endsWith_ext_iff (by decide), endsWith_ext_iff (by decide),
    endsWith_ext_iff (by decide), endsWith_ext_iff (by decide),
    endsWith_ext_iff (by decide), endsWith_ext_iff (by decide),
    endsWith_ext_iff (by decide)]
  have r1 : (['j', 'p', 'g'] : List Char).reverse = ['g', 'p', 'j'] := rfl
  have r2 : (['j', 'p', 'e', 'g'] : List Char).reverse = ['g', 'e', 'p', 'j'] := rfl
  have r3 : (['t', 'i', 'f', 'f'] : List Char).reverse = ['f', 'f', 'i', 't'] := rfl
  have r4 : (['d', 'n', 'g'] : List Char).reverse = ['g', 'n', 'd'] := rfl
  have r5 : (['n', 'e', 'f'] : List Char).reverse = ['f', 'e', 'n'] := rfl
  have r6 : (['c', 'r', '2'] : List Char).reverse = ['2', 'r', 'c'] := rfl
  have r7 : (['a', 'r', 'w'] : List Char).reverse = ['w', 'r', 'a'] := rfl
  rw [r1, r2, r3, r4, r5, r6, r7]
  tauto

theorem specIncludes_iff {f : String} :
    specIncludes f = true ↔
      (('.' : Char) ∈ (pyLower f).data.reverse ∧
        (revExtChars (pyLower f) = ['g', 'p', 'j'] ∨
         revExtChars (pyLower f) = ['g', 'e', 'p', 'j'] ∨
         revExtChars (pyLower f) = ['f', 'f', 'i', 't'] ∨
         revExtChars (pyLower f) = ['g', 'n', 'd'] ∨
         revExtChars (pyLower f) = ['f', 'e', 'n'] ∨
         revExtChars (pyLower f) = ['2', 'r', 'c'] ∨
         revExtChars (pyLower f) = ['w', 'r', 'a'])) := by
  unfold specIncludes extOf SUPPORTED_EXT_NAMES revExtChars
  by_cases hc : ('.' : Char) ∈ (pyLower f).data.reverse
  · have hcc : (pyLower f).data.reverse.contains '.' = true := by simpa using hc
    simp only [hcc, if_true]
    generalize List.takeWhile (fun c => decide (c ≠ '.')) (pyLower f).data.reverse = T
    simp [hc, String.ext_iff, List.reverse_eq_iff]
  · have hcc : (pyLower f).data.reverse.contains '.' = false := by simpa using hc
    simp only [hcc, Bool.false_eq_true, if_false]
    simp [hc]

/-! The claims. -/

/-- C1: the claim that extraction never raises is broken by the code: a tag
value with a `/` whose numerator is not a parseable number (here rating
`"a/2"`: the denominator parses and is nonzero, so `float("a")` is
evaluated) raises `ValueError`, which `get_exif_data` does not catch; the
exception re-raises out of `list(executor.map(...))` and aborts the whole
batch.  A value with more than one `/` (here `"1/2/3"`) likewise raises on
tuple unpacking. -/
theorem C1_extraction_raises_on_bad_rational :
    get_exif_data "a.jpg" (some badSlashTags) (.num 1) = .error () ∧
    analyze_folder [⟨"a.jpg", some badSlashTags⟩] (.num 1) none = .error () ∧
    parse_exif [("EXIF ExposureTime", "1/2/3")] "EXIF ExposureTime" = .error () := by
  with_unfolding_all decide

/-- C2 counterexample: an output row can carry a zero aperture, an infinite
ISO and a negative focal length — the cleanup only removes `NaN`s, so
neither strict positivity nor finiteness holds for output rows. -/
theorem C2_positive_finite_counterexample :
    analyze_folder [⟨"i.jpg", some invalidNumTags⟩] (.num 1) none
      = .ok ⟨[.mkdirOutput, .writeCsv [invalidNumRow], .computeLog [.num (1 / 250)],
            .writePlot], some [invalidNumRow]⟩ ∧
    isPositiveVal invalidNumRow.fStop = false ∧
    isFiniteVal invalidNumRow.iso = false ∧
    isPositiveVal invalidNumRow.focalLength = false := by
  with_unfolding_all decide

/-- C2 (amended): every numeric field of every output row is present and is
an actual number (not missing and not `NaN`); strict positivity and
finiteness are not enforced by the code. -/
theorem C2_fields_present_numeric {files : List FSFile} {min_rating : PyFloat}
    {selected_lens : Option String} {res : AnalyzeResult} {rows : List Record}
    {r : Record}
    (hrun : analyze_folder files min_rating selected_lens = .ok res)
    (htab : res.table = some rows) (hr : r ∈ rows) :
    isRealValue r.fStop = true ∧ isRealValue r.iso = true ∧
      isRealValue r.shutterSpeed = true ∧ isRealValue r.focalLength = true := by
  obtain ⟨results, hm, hrows⟩ := analyze_ok_some hrun htab
  rw [hrows, List.mem_filter] at hr
  have hkept := hr.2
  unfold rowKept at hkept
  simp only [Bool.and_eq_true] at hkept
  exact ⟨hkept.1.1.1.2, hkept.1.1.2, hkept.1.2, hkept.2⟩

/-- C2 amended, witnessed at a concrete run over one fully valid file. -/
theorem C2_fields_present_numeric_witness :
    isRealValue goodRow.fStop = true ∧ isRealValue goodRow.iso = true ∧
      isRealValue goodRow.shutterSpeed = true ∧ isRealValue goodRow.focalLength = true :=
  @C2_fields_present_numeric [⟨"g.jpg", some goodTags⟩] (.num 1) none
    ⟨[.mkdirOutput, .writeCsv [goodRow], .computeLog [.num (1 / 250)], .writePlot],
      some [goodRow]⟩ [goodRow] goodRow
    (by with_unfolding_all decide) rfl (by simp)

/-- C3: a row exists in the output table only if all four numeric EXIF
fields parsed to actual numbers and the row's rating is at least the
configured minimum (the minimum being a real number, per the spec's input
contract). -/
theorem C3_rows_rated_and_parsed {files : List FSFile} {m : ℚ}
    {selected_lens : Option String} {res : AnalyzeResult} {rows : List Record}
    {r : Record}
    (hrun : analyze_folder files (.num m) selected_lens = .ok res)
    (htab : res.table = some rows) (hr : r ∈ rows) :
    isRealValue r.fStop = true ∧ isRealValue r.iso = true ∧
      isRealValue r.shutterSpeed = true ∧ isRealValue r.focalLength = true ∧
      pyGe r.rating (.num m) = true := by
  obtain ⟨results, hm, hrows⟩ := analyze_ok_some hrun htab
  rw [hrows, List.mem_filter] at hr
  obtain ⟨hmem, hkept⟩ := hr
  obtain ⟨hsome, -⟩ := mem_collectData hmem
  obtain ⟨f, -, hget⟩ := collected_from_extraction hm hsome
  have hlt := get_exif_data_rating hget
  unfold rowKept at hkept
  simp only [Bool.and_eq_true] at hkept
  refine ⟨hkept.1.1.1.2, hkept.1.1.2, hkept.1.2, hkept.2, ?_⟩
  exact pyGe_of_not_lt (by simpa using hkept.1.1.1.1) rfl hlt

/-- C3, witnessed at a concrete run with minimum rating 3. -/
theorem C3_rows_rated_and_parsed_witness :
    isRealValue goodRow.fStop = true ∧ isRealValue goodRow.iso = true ∧
      isRealValue goodRow.shutterSpeed = true ∧ isRealValue goodRow.focalLength = true ∧
      pyGe goodRow.rating (.num 3) = true :=
  @C3_rows_rated_and_parsed [⟨"g.jpg", some goodTags⟩] 3 none
    ⟨[.mkdirOutput, .writeCsv [goodRow], .computeLog [.num (1 / 250)], .writePlot],
      some [goodRow]⟩ [goodRow] goodRow
    (by with_unfolding_all decide) rfl (by simp)

/-- C4: whenever `analyze_folder` returns with no table — both the
"no valid images" return after the lens filter and the "no valid EXIF
data" return after the cleanup — its effect trace is empty: no output
directory is touched, no CSV and no plot file is written. -/
theorem C4_no_data_writes_nothing {files : List FSFile} {min_rating : PyFloat}
    {selected_lens : Option String} {res : AnalyzeResult}
    (hrun : analyze_folder files min_rating selected_lens = .ok res)
    (htab : res.table = none) :
    res.effects = [] := by
  dsimp only [analyze_folder] at hrun
  cases hm : (files.filter (fun f => scanIncludes f.name)).mapM
      (fun f => get_exif_data f.name f.tags min_rating) with
  | error e =>
    rw [hm, exceptBind_error] at hrun
    exact absurd hrun (by simp)
  | ok results =>
    simp only [hm, exceptBind_ok] at hrun
    by_cases hd : (collectData results selected_lens).isEmpty
    · rw [if_pos hd] at hrun
      simp only [pure, Except.pure, Except.ok.injEq] at hrun
      rw [← hrun]
    · rw [if_neg hd] at hrun
      by_cases hr2 : ((collectData results selected_lens).filter rowKept).isEmpty
      · rw [if_pos hr2] at hrun
        simp only [pure, Except.pure, Except.ok.injEq] at hrun
        rw [← hrun]
      · rw [if_neg hr2] at hrun
        simp only [pure, Except.pure, Except.ok.injEq] at hrun
        rw [← hrun] at htab
        exact absurd htab (by simp)

/-- C4, witnessed at a run over an empty directory. -/
theorem C4_no_data_writes_nothing_witness :
    (⟨[], none⟩ : AnalyzeResult).effects = [] :=
  @C4_no_data_writes_nothing [] (.num 1) none ⟨[], none⟩ (by with_unfolding_all decide) rfl

/-- C5: the rational-string decoding of the extractor maps `"1/250"` to the
number 0.004 = 1/250, and `"1/0"` (zero denominator) to a missing value;
in a run over one fully valid file and one file whose exposure time is
`"1/0"`, the latter's row is dropped from the output table by the
`dropna` cleanup. -/
theorem C5_rational_decoding :
    parse_exif [("EXIF ExposureTime", "1/250")] "EXIF ExposureTime"
      = .ok (some (.num 0.004)) ∧
    (0.004 : ℚ) = 1 / 250 ∧
    parse_exif [("EXIF ExposureTime", "1/0")] "EXIF ExposureTime" = .ok none ∧
    get_exif_data "z.jpg" (some zeroDenomTags) (.num 1) = .ok (some zeroDenomRow) ∧
    analyze_folder [⟨"g.jpg", some goodTags⟩, ⟨"z.jpg", some zeroDenomTags⟩] (.num 1) none
      = .ok ⟨[.mkdirOutput, .writeCsv [goodRow], .computeLog [.num (1 / 250)], .writePlot],
          some [goodRow]⟩ := by
  with_unfolding_all decide

/-- C6: the scanner includes a file iff its extension — the part after the
last dot of the (lowercased) name — is one of the supported set
jpg, jpeg, tiff, dng, nef, cr2, arw; equivalently, the code's
case-insensitive dotted-suffix test agrees with the spec's
extension-membership test on every filename. -/
theorem C6_scanner_includes_iff_supported_ext (f : String) :
    scanIncludes f = specIncludes f := by
  rw [Bool.eq_iff_iff, scanIncludes_iff, specIncludes_iff]

/-- C7: (a) when a lens filter is supplied, every output row's lens field
equals the filter string exactly; (b) when no filter is supplied, the
collection step keeps every non-absent record unconditionally (so every
record passing the rating threshold and the numeric cleanup is retained
regardless of its lens). -/
theorem C7_lens_filter_exact :
    (∀ (files : List FSFile) (min_rating : PyFloat) (lf : String)
        (res : AnalyzeResult) (rows : List Record) (r : Record),
        analyze_folder files min_rating (some lf) = .ok res →
        res.table = some rows → r ∈ rows → r.lens = lf)
    ∧ ∀ results : List (Option Record), collectData results none = results.filterMap id := by
  constructor
  · intro files min_rating lf res rows r hrun htab hr
    obtain ⟨results, hm, hrows⟩ := analyze_ok_some hrun htab
    rw [hrows, List.mem_filter] at hr
    have hl := (mem_collectData hr.1).2
    unfold lensMatches at hl
    exact eq_of_beq hl
  · exact collectData_none

/-- C7, witnessed: a filtered run only yields rows with the filter's lens,
and an unfiltered collection keeps all non-absent records. -/
theorem C7_lens_filter_exact_witness :
    goodRow.lens = "L" ∧ collectData [some goodRow, none] none = [goodRow] :=
  ⟨C7_lens_filter_exact.1 [⟨"g.jpg", some goodTags⟩] (.num 1) "L"
      ⟨[.mkdirOutput, .writeCsv [goodRow], .computeLog [.num (1 / 250)], .writePlot],
        some [goodRow]⟩ [goodRow] goodRow
      (by with_unfolding_all decide) rfl (by simp),
    C7_lens_filter_exact.2 [some goodRow, none]⟩

/-- C8: the output table, as an unordered multiset of rows, is invariant
under re-running the aggregator with the same parameters over the same
directory contents in any traversal order: if the scanned file lists of
two runs are permutations of each other, the two row lists are
permutations of each other.  (The same-inputs, same-order special case is
the identity permutation.) -/
theorem C8_rowset_order_invariant {files1 files2 : List FSFile}
    {min_rating : PyFloat} {selected_lens : Option String}
    {res1 res2 : AnalyzeResult} {rows1 rows2 : List Record}
    (hperm : files1.Perm files2)
    (h1 : analyze_folder files1 min_rating selected_lens = .ok res1)
    (ht1 : res1.table = some rows1)
    (h2 : analyze_folder files2 min_rating selected_lens = .ok res2)
    (ht2 : res2.table = some rows2) :
    rows1.Perm rows2 := by
  obtain ⟨results1, hm1, hr1⟩ := analyze_ok_some h1 ht1
  obtain ⟨results2, hm2, hr2⟩ := analyze_ok_some h2 ht2
  rw [hr1, hr2]
  have hp : results1.Perm results2 := by
    rw [mapM_ok_eq_map _ hm1, mapM_ok_eq_map _ hm2]
    exact (hperm.filter _).map _
  unfold collectData
  exact (hp.filterMap _).filter _

/-- C8, witnessed: two runs over the same two files in swapped order yield
row lists that are permutations of each other. -/
theorem C8_rowset_order_invariant_witness :
    ([goodRow, zeroShutterRow] : List Record).Perm [zeroShutterRow, goodRow] :=
  @C8_rowset_order_invariant
    [⟨"g.jpg", some goodTags⟩, ⟨"s.jpg", some zeroShutterTags⟩]
    [⟨"s.jpg", some zeroShutterTags⟩, ⟨"g.jpg", some goodTags⟩]
    (.num 1) none
    ⟨[.mkdirOutput, .writeCsv [goodRow, zeroShutterRow],
        .computeLog [.num (1 / 250), .num 0], .writePlot], some [goodRow, zeroShutterRow]⟩
    ⟨[.mkdirOutput, .writeCsv [zeroShutterRow, goodRow],
        .computeLog [.num 0, .num (1 / 250)], .writePlot], some [zeroShutterRow, goodRow]⟩
    [goodRow, zeroShutterRow] [zeroShutterRow, goodRow]
    (by with_unfolding_all decide) (by with_unfolding_all decide) rfl
    (by with_unfolding_all decide) rfl

/-- C9: the code does NOT filter rows with shutter speed ≤ 0 before the
`log10` step: a file whose exposure time is `"0"` survives `dropna` (0 is
not `NaN`), stays in the table, and `np.log10` is applied to the value 0. -/
theorem C9_zero_shutter_reaches_log :
    analyze_folder [⟨"s.jpg", some zeroShutterTags⟩] (.num 1) none
      = .ok ⟨[.mkdirOutput, .writeCsv [zeroShutterRow], .computeLog [.num 0], .writePlot],
          some [zeroShutterRow]⟩ ∧
    zeroShutterRow.shutterSpeed = some (.num 0) := by
  with_unfolding_all decide

/-- C10: a rating tag that parses to `NaN` is not rejected by the
extractor's threshold check (`NaN < min` is `False` for every minimum),
so extraction returns a record whose rating is `NaN`; that record fails
the aggregator's row cleanup (`dropna`), which is the only step that
removes it. -/
theorem C10_nan_rating_passes_extractor {p : String} {tags : Tags}
    {min_rating : PyFloat} {v1 v2 v3 v4 : Option PyFloat}
    (hrat : parse_exif tags "Image Rating" = .ok (some .nan))
    (h1 : parse_exif tags "EXIF FNumber" = .ok v1)
    (h2 : parse_exif tags "EXIF ISOSpeedRatings" = .ok v2)
    (h3 : parse_exif tags "EXIF ExposureTime" = .ok v3)
    (h4 : parse_exif tags "EXIF FocalLength" = .ok v4) :
    get_exif_data p (some tags) min_rating
      = .ok (some (nanRatingRecord p tags v1 v2 v3 v4)) ∧
    rowKept (nanRatingRecord p tags v1 v2 v3 v4) = false := by
  have hlt : pyLt PyFloat.nan min_rating = false := by cases min_rating <;> rfl
  refine ⟨?_, rfl⟩
  simp only [get_exif_data, hrat, h1, h2, h3, h4, exceptBind_ok, hlt,
    Bool.false_eq_true, if_false, nanRatingRecord]
  rfl

/-- C10, witnessed at tags whose rating value is the string `"nan"`. -/
theorem C10_nan_rating_passes_extractor_witness :
    get_exif_data "n.jpg" (some nanRatingTags) (.num 3)
      = .ok (some (nanRatingRecord "n.jpg" nanRatingTags (some (.num (14 / 5)))
          (some (.num 400)) (some (.num (1 / 250))) (some (.num 35)))) ∧
    rowKept (nanRatingRecord "n.jpg" nanRatingTags (some (.num (14 / 5)))
        (some (.num 400)) (some (.num (1 / 250))) (some (.num 35))) = false :=
  C10_nan_rating_passes_extractor
    (by with_unfolding_all decide) (by with_unfolding_all decide)
    (by with_unfolding_all decide) (by with_unfolding_all decide)
    (by with_unfolding_all decide)
